import Mathlib

/-!
Verification of `website_api`: a shallow embedding of
`src/apps/users/serializers/auth_serializers.py` (registration and
password-reset-confirmation validators) and
`src/mixins/api_response_mixin.py` (the `APIResponseMixin` response
envelopes, including DRF `PageNumberPagination` / Django `Paginator`
semantics that `paginated_response` delegates to).
-/

deriving instance DecidableEq for Except

namespace WebsiteApi

/-! ## Python exceptions

The validators either return the validated value or raise an exception:
a DRF `ValidationError` with a message, or — when `re.match` is handed
`None` — a `TypeError` from the `re` module. -/

inductive PyExc where
  | validationError (msg : String)
  | typeError (msg : String)
  | notFound (msg : String)
  | attributeError (msg : String)
deriving DecidableEq, Repr

/-! ## The composed password regex

`auth_serializers.py` line 29:
`r'^(?=.*[a-z])(?=.*[A-Z])(?=.*\d)(?=.*[@$!%*?&#^()\-_=+\x7b\x7d;:,<.>])[A-Za-z\d@$!%*?&#^()\-_=+\x7b\x7d;:,<.>]\x7b8,16\x7d$'`

evaluated by Python's `re.match` on a `str`, whose semantics the
embedding reproduces:

* `re.match` anchors at the start (the `^` is redundant);
* `$` without `re.MULTILINE` matches at the end of the string or just
  before a single trailing newline, so the body `[...]\x7b8,16\x7d$`
  matches exactly when the string minus one trailing newline (if any)
  has length 8-16 and consists of characters of the body class;
* `.` without `re.DOTALL` does not match a newline, so each lookahead
  `(?=.*[C])` succeeds exactly when a character of class `C` occurs
  before the first newline of the string;
* `\d` on a `str` pattern matches every Unicode decimal digit
  (category Nd), not only `0`-`9`. -/

/-- The symbol set `@$!%*?&#^()-_=+{};:,<.>` of the composed regex. -/
def passwordSymbols : List Char :=
  ['@', '$', '!', '%', '*', '?', '&', '#', '^', '(', ')', '-', '_', '=',
   '+', '\x7b', '\x7d', ';', ':', ',', '<', '.', '>']

/-- ASCII `[a-z]`. -/
def isLowerAscii (c : Char) : Bool := 'a' ≤ c && c ≤ 'z'

/-- ASCII `[A-Z]`. -/
def isUpperAscii (c : Char) : Bool := 'A' ≤ c && c ≤ 'Z'

/-- ASCII `[0-9]` (used by the page-number parser, and to state facts
about ASCII digits as distinct from Unicode `\d`). -/
def isDigitAscii (c : Char) : Bool := '0' ≤ c && c ≤ '9'

/-- First code points of the decades (runs of ten consecutive digits
`0`-`9`) that make up Unicode category Nd; every Nd character lies in
exactly one such decade (Unicode 14.0.0, as shipped with CPython's
`unicodedata`). -/
def ndDecadeStarts : List Nat :=
  [48, 1632, 1776, 1984, 2406, 2534, 2662, 2790, 2918, 3046, 3174,
   3302, 3430, 3558, 3664, 3792, 3872, 4160, 4240, 6112, 6160, 6470,
   6608, 6784, 6800, 6992, 7088, 7232, 7248, 42528, 43216, 43264,
   43472, 43504, 43600, 44016, 65296, 66720, 68912, 69734, 69872,
   69942, 70096, 70384, 70736, 70864, 71248, 71360, 71472, 71904,
   72016, 72784, 73040, 73120, 92768, 92864, 93008, 120782, 120792,
   120802, 120812, 120822, 123200, 123632, 125264, 130032]

/-- Python's `\d` on a `str`: any Unicode decimal digit (category Nd). -/
def isPyDigit (c : Char) : Bool :=
  ndDecadeStarts.any (fun r => r ≤ c.toNat && c.toNat ≤ r + 9)

/-- Membership in the regex's symbol class. -/
def isPasswordSymbol (c : Char) : Bool := passwordSymbols.contains c

/-- Membership in the regex body's character class
`[A-Za-z\d@$!%*?&#^()\-_=+\x7b\x7d;:,<.>]`. -/
def isAllowedPasswordChar (c : Char) : Bool :=
  isLowerAscii c || isUpperAscii c || isPyDigit c || isPasswordSymbol c

/-- The characters a lookahead `(?=.*[C])` can reach: `.` does not
match a newline, so only the prefix before the first newline. -/
def lookaheadChars (s : String) : List Char :=
  s.data.takeWhile (fun c => c ≠ '\n')

/-- The characters the body `[...]\x7b8,16\x7d$` must cover: the whole
string, minus a single trailing newline (which `$` may precede). -/
def bodyChars (s : String) : List Char :=
  if s.data.getLast? = some '\n' then s.data.dropLast else s.data

/-- `re.match(password_regex, s)` as a Boolean: the four lookaheads
over the pre-newline prefix, then the body class and the
`\x7b8,16\x7d` length bound over the string minus a trailing newline. -/
def matchPasswordRegex (s : String) : Bool :=
  (lookaheadChars s).any isLowerAscii && (lookaheadChars s).any isUpperAscii
    && (lookaheadChars s).any isPyDigit && (lookaheadChars s).any isPasswordSymbol
    && decide (8 ≤ (bodyChars s).length) && decide ((bodyChars s).length ≤ 16)
    && (bodyChars s).all isAllowedPasswordChar

/-! ## The registration validator

`UserRegistrationSerializer.validate_password_confirmation` (lines
27-38).  `self.get_initial().get('password')` reads the raw input
dictionary, so it yields `None` when the `password` key is absent —
modelled as `Option String`.  `re.match` applied to `None` raises
`TypeError`.  The regex check runs first; only then is the raw
password compared with the confirmation value. -/

/-- The `ValidationError` message raised when the composed regex fails. -/
def invalidPasswordMsg : String :=
  "Password must be at least 8 characters long and contain at least one uppercase letter, one lowercase letter, one digit, and one special character"

/-- The `ValidationError` message raised on password mismatch. -/
def passwordMismatchMsg : String := "Passwords do not match"

/-- The `TypeError` message Python's `re.match` raises on a `None` argument. -/
def reMatchTypeErrorMsg : String := "expected string or bytes-like object"

namespace UserRegistrationSerializer

/-- `UserRegistrationSerializer.validate_password_confirmation`:
`password` is `self.get_initial().get('password')` (raw input, `None`
when absent); `value` is the confirmation field's value. -/
def validate_password_confirmation (password : Option String) (value : String) :
    Except PyExc String :=
  match password with
  | none => .error (.typeError reMatchTypeErrorMsg)
  | some p =>
    if !matchPasswordRegex p then
      .error (.validationError invalidPasswordMsg)
    else if p ≠ value then
      .error (.validationError passwordMismatchMsg)
    else
      .ok value

end UserRegistrationSerializer

/-! ## The password-reset-confirmation validator

`PasswordResetConfirmationSerializer` (lines 77-89): `otp` is a bare
`CharField()`, `password` a `CharField(max_length=128, min_length=8)`,
`password_confirmation` a bare `CharField()` with no length bounds.
Its `validate_password_confirmation` only compares the confirmation
against the raw `password` value; Python's `!=` between `None` and a
string is `True`. -/

/-- A DRF `CharField` declaration: the optional length bounds. -/
structure CharFieldDecl where
  max_length : Option Nat
  min_length : Option Nat
deriving DecidableEq, Repr

namespace PasswordResetConfirmationSerializer

/-- The `password` field: `CharField(max_length=128, min_length=8)`. -/
def password_field : CharFieldDecl := ⟨some 128, some 8⟩

/-- The `password_confirmation` field: a bare `CharField()`. -/
def password_confirmation_field : CharFieldDecl := ⟨none, none⟩

/-- Python `password != value` where `password` came from
`get_initial().get('password')` and may be `None`. -/
def pyNe (password : Option String) (value : String) : Bool :=
  match password with
  | none => true
  | some p => p ≠ value

/-- `PasswordResetConfirmationSerializer.validate_password_confirmation`. -/
def validate_password_confirmation (password : Option String) (value : String) :
    Except PyExc String :=
  if pyNe password value then
    .error (.validationError passwordMismatchMsg)
  else
    .ok value

end PasswordResetConfirmationSerializer

/-! ## `src/mixins/api_response_mixin.py`

`APIResponseMixin` builds DRF `Response` objects.  A `Response` is
modelled as a body plus the outer HTTP status.  `paginated_response`
delegates to DRF's `PageNumberPagination`, which in turn delegates to
Django's `Paginator` (with its defaults `orphans=0`,
`allow_empty_first_page=True`); both are embedded below from their
sources, since their behaviour decides the pagination claims.  URL
construction in the page links is abstracted to simple string
concatenation — only the presence or absence of a link matters here. -/

/-- A DRF `Response`: a body and the outer HTTP status code. -/
structure Response (γ : Type) where
  body : γ
  status : Nat
deriving DecidableEq, Repr

/-- The body of a `success` envelope. -/
structure SuccessBody (δ : Type) where
  status : Bool
  message : String
  data : Option δ
deriving DecidableEq, Repr

/-- The body of an `error` envelope. -/
structure ErrorBody where
  status : Bool
  message : String
  errors : Option (List String)
deriving DecidableEq, Repr

/-- The Python value passed as `errors`: `Optional[Union[str, List[str]]]`. -/
inductive ErrorsArg where
  | none
  | str (s : String)
  | list (l : List String)
deriving DecidableEq, Repr

/-- The `pagination` block of a paginated envelope. -/
structure PaginationBlock where
  next : Option String
  previous : Option String
  count : Nat
  current_page : Nat
  total_pages : Nat
deriving DecidableEq, Repr

/-- The body of a `paginated_response` envelope. -/
structure PaginatedBody (β : Type) where
  status : Bool
  message : String
  data : List β
  status_code : Nat
  pagination : PaginationBlock
deriving DecidableEq, Repr

/-- A DRF request, reduced to what pagination reads: the absolute URI
and the value of the `page` query parameter, when present. -/
structure Request where
  base_url : String
  page_param : Option String

/-- A Django queryset, reduced to its items, its `ordered` flag, and
the `created_at` key `order_by('created_at')` sorts by. -/
structure Queryset (α : Type) where
  items : List α
  ordered : Bool
  created_at : α → Nat

/-- Insertion of an element into a list sorted by `key` (ascending). -/
def insertBy (key : α → Nat) (a : α) : List α → List α
  | [] => [a]
  | b :: l => if key a ≤ key b then a :: b :: l else b :: insertBy key a l

/-- Stable ascending sort by `key`, modelling the database ordering
imposed by `order_by('created_at')`. -/
def sortBy (key : α → Nat) : List α → List α
  | [] => []
  | a :: l => insertBy key a (sortBy key l)

/-- `queryset.order_by('created_at')`: the same items, sorted, with the
`ordered` flag set. -/
def Queryset.order_by_created_at (qs : Queryset α) : Queryset α :=
  ⟨sortBy qs.created_at qs.items, true, qs.created_at⟩

/-! ### Django's `Paginator` (django/core/paginator.py)

Embedded with its defaults as used by DRF's `PageNumberPagination`:
`orphans = 0`, `allow_empty_first_page = True`.  `num_pages` is
`ceil(max(1, count - orphans) / per_page)`; in particular an empty
object list still has one (empty) page.  An invalid page number raises
`InvalidPage`, which DRF converts to `NotFound('Invalid page.')`. -/

structure DjangoPaginator (α : Type) where
  object_list : List α
  per_page : Nat

/-- `Paginator.count`. -/
def DjangoPaginator.count (p : DjangoPaginator α) : Nat := p.object_list.length

/-- `Paginator.num_pages = ceil(max(1, count) / per_page)` (with
`allow_empty_first_page=True` and `orphans=0`). -/
def DjangoPaginator.num_pages (p : DjangoPaginator α) : Nat :=
  (max 1 p.count + p.per_page - 1) / p.per_page

/-- A Django `Page`: the slice, its 1-based number, and its paginator. -/
structure Page (α : Type) where
  object_list : List α
  number : Nat
  paginator : DjangoPaginator α

/-- `Paginator.validate_number`, composed with DRF's conversion of
`InvalidPage` into `NotFound('Invalid page.')`. -/
def DjangoPaginator.validate_number (p : DjangoPaginator α) (number : Nat) :
    Except PyExc Nat :=
  if number < 1 then .error (.notFound "Invalid page.")
  else if number > p.num_pages then
    if number = 1 then .ok number else .error (.notFound "Invalid page.")
  else .ok number

/-- `Paginator.page(number)`: validates the number and slices
`object_list[(number-1)*per_page : min(number*per_page, count)]`. -/
def DjangoPaginator.page (p : DjangoPaginator α) (number : Nat) :
    Except PyExc (Page α) :=
  match p.validate_number number with
  | .error e => .error e
  | .ok n =>
    let bottom := (n - 1) * p.per_page
    let top0 := bottom + p.per_page
    let top := if top0 ≥ p.count then p.count else top0
    .ok ⟨(p.object_list.drop bottom).take (top - bottom), n, p⟩

/-- `Page.has_next`. -/
def Page.has_next (pg : Page α) : Bool := pg.number < pg.paginator.num_pages

/-- `Page.has_previous`. -/
def Page.has_previous (pg : Page α) : Bool := 1 < pg.number

/-- `Page.next_page_number`. -/
def Page.next_page_number (pg : Page α) : Nat := pg.number + 1

/-- `Page.previous_page_number`. -/
def Page.previous_page_number (pg : Page α) : Nat := pg.number - 1

/-! ### DRF's `PageNumberPagination` (rest_framework/pagination.py) -/

/-- `PageNumberPagination.page_query_param`. -/
def page_query_param : String := "page"

/-- `replace_query_param(url, key, val)`, abstracted to concatenation. -/
def replace_query_param (url : String) (param : String) (value : Nat) : String :=
  url ++ "?" ++ param ++ "=" ++ toString value

/-- `remove_query_param(url, key)`, abstracted to the bare URL. -/
def remove_query_param (url : String) (_param : String) : String := url

/-- Decimal digits to a number, left to right. -/
def natOfDigits (acc : Nat) : List Char → Option Nat
  | [] => Option.some acc
  | c :: cs =>
    if isDigitAscii c then natOfDigits (acc * 10 + (c.toNat - '0'.toNat)) cs
    else Option.none

/-- Python `int(s)` for a non-negative decimal string; any other string
(including a negative number, which the paginator would reject as
`< 1` anyway) raises `ValueError`, modelled as `Option.none`. -/
def str_to_int (s : String) : Option Nat :=
  if s.data.isEmpty then Option.none else natOfDigits 0 s.data

/-- `PageNumberPagination.get_page_number`: the `page` query parameter,
defaulting to 1; `'last'` maps to `num_pages`; a non-numeric value
raises `PageNotAnInteger`, which DRF converts to `NotFound`. -/
def get_page_number (req : Request) (p : DjangoPaginator α) : Except PyExc Nat :=
  match req.page_param with
  | Option.none => .ok 1
  | Option.some s =>
    if s = "last" then .ok p.num_pages
    else match str_to_int s with
      | Option.some n => .ok n
      | Option.none => .error (.notFound "Invalid page.")

/-- `PageNumberPagination.paginate_queryset` with `page_size` already
installed on the paginator.  A zero `page_size` makes DRF return
`None`, after which the mixin's later read of `paginator.page` raises
`AttributeError`. -/
def paginate_queryset (items : List α) (page_size : Nat) (req : Request) :
    Except PyExc (Page α) :=
  if page_size = 0 then .error (.attributeError "page")
  else
    let paginator : DjangoPaginator α := ⟨items, page_size⟩
    match get_page_number req paginator with
    | .error e => .error e
    | .ok n => paginator.page n

/-- `PageNumberPagination.get_next_link`. -/
def get_next_link (pg : Page α) (req : Request) : Option String :=
  if !pg.has_next then Option.none
  else Option.some (replace_query_param req.base_url page_query_param pg.next_page_number)

/-- `PageNumberPagination.get_previous_link`: the link to page 1 drops
the query parameter instead of setting it. -/
def get_previous_link (pg : Page α) (req : Request) : Option String :=
  if !pg.has_previous then Option.none
  else
    let n := pg.previous_page_number
    if n = 1 then Option.some (remove_query_param req.base_url page_query_param)
    else Option.some (replace_query_param req.base_url page_query_param n)

/-! ### The mixin itself -/

namespace APIResponseMixin

/-- `APIResponseMixin.success`. -/
def success (message : String) (data : Option δ := Option.none)
    (status_code : Nat := 200) : Response (SuccessBody δ) :=
  ⟨⟨true, message, data⟩, status_code⟩

/-- `APIResponseMixin.error`: `[errors] if isinstance(errors, str) else errors`. -/
def error (message : String) (errors : ErrorsArg := ErrorsArg.none)
    (status_code : Nat := 400) : Response ErrorBody :=
  ⟨⟨false, message,
    match errors with
    | ErrorsArg.str s => Option.some [s]
    | ErrorsArg.list l => Option.some l
    | ErrorsArg.none => Option.none⟩, status_code⟩

/-- `APIResponseMixin.paginated_response`: orders the queryset if it is
unordered, paginates, serializes the page elementwise, and wraps the
result; the outer HTTP status is the literal `status.HTTP_200_OK`. -/
def paginated_response (request : Request) (queryset : Queryset α)
    (serializer_class : α → β) (message : String := "Success")
    (page_size : Nat := 10) (status_code : Nat := 200) :
    Except PyExc (Response (PaginatedBody β)) :=
  let qs := if !queryset.ordered then queryset.order_by_created_at else queryset
  match paginate_queryset qs.items page_size request with
  | .error e => .error e
  | .ok page =>
    .ok ⟨⟨true, message, page.object_list.map serializer_class, status_code,
          ⟨get_next_link page request, get_previous_link page request,
           page.paginator.count, page.number, page.paginator.num_pages⟩⟩, 200⟩

end APIResponseMixin

/-! ## Theorems about the validators -/

/-- Characterization of the composed regex as a conjunction of the
four lookaheads (over the pre-newline prefix), the length bound, and
the body's character class (over the string minus a trailing newline). -/
theorem matchPasswordRegex_iff (s : String) :
    matchPasswordRegex s = true ↔
      (lookaheadChars s).any isLowerAscii = true
      ∧ (lookaheadChars s).any isUpperAscii = true
      ∧ (lookaheadChars s).any isPyDigit = true
      ∧ (lookaheadChars s).any isPasswordSymbol = true
      ∧ 8 ≤ (bodyChars s).length ∧ (bodyChars s).length ≤ 16
      ∧ (bodyChars s).all isAllowedPasswordChar = true := by
  simp [matchPasswordRegex, and_assoc]

/-- C1 counterexample: the input `password="short"`,
`password_confirmation="different"` has differing password and
confirmation, yet validation fails with the InvalidPassword message,
not the PasswordMismatch one — the composed regex is checked first. -/
theorem mismatch_with_weak_password_reports_invalid_password :
    ("short" : String) ≠ "different"
    ∧ UserRegistrationSerializer.validate_password_confirmation
        (Option.some "short") "different"
      = .error (.validationError invalidPasswordMsg)
    ∧ invalidPasswordMsg ≠ passwordMismatchMsg := by
  refine ⟨by decide, rfl, by decide⟩

/-- C1 (amended): when password and confirmation differ, validation
fails with PasswordMismatch provided the password passes the composed
regex; when the password fails the composed regex, the InvalidPassword
error is raised instead, because the regex check is evaluated first. -/
theorem mismatch_error_requires_regex_pass (p v : String) (hne : p ≠ v) :
    (matchPasswordRegex p = true →
      UserRegistrationSerializer.validate_password_confirmation (Option.some p) v
        = .error (.validationError passwordMismatchMsg))
    ∧ (matchPasswordRegex p = false →
      UserRegistrationSerializer.validate_password_confirmation (Option.some p) v
        = .error (.validationError invalidPasswordMsg)) := by
  constructor <;> intro h <;>
    simp [UserRegistrationSerializer.validate_password_confirmation, h, hne]

/-- Witness for the amended C1 at a concrete input. -/
theorem mismatch_error_requires_regex_pass_witness :
    UserRegistrationSerializer.validate_password_confirmation
        (Option.some "Abcdef1!") "Abcdef2!"
      = .error (.validationError passwordMismatchMsg) :=
  (mismatch_error_requires_regex_pass "Abcdef1!" "Abcdef2!" (by decide)).1 (by decide)

/-- C4: registration's `validate_password_confirmation` accepts
(returning the confirmation value) iff the raw password matches the
composed regex and equals the confirmation; on rejection it reports
InvalidPassword when the regex fails and PasswordMismatch when the
regex passes but the values differ. -/
theorem registration_accepts_iff_regex_and_match (p v : String) :
    (UserRegistrationSerializer.validate_password_confirmation (Option.some p) v
        = .ok v
      ↔ matchPasswordRegex p = true ∧ p = v)
    ∧ (matchPasswordRegex p = false →
      UserRegistrationSerializer.validate_password_confirmation (Option.some p) v
        = .error (.validationError invalidPasswordMsg))
    ∧ (matchPasswordRegex p = true → p ≠ v →
      UserRegistrationSerializer.validate_password_confirmation (Option.some p) v
        = .error (.validationError passwordMismatchMsg)) := by
  refine ⟨⟨fun h => ?_, fun h => ?_⟩, fun hm => ?_, fun hm hv => ?_⟩
  · by_cases hm : matchPasswordRegex p = true
    · by_cases hv : p = v
      · exact ⟨hm, hv⟩
      · simp [UserRegistrationSerializer.validate_password_confirmation, hm, hv] at h
    · have hm' : matchPasswordRegex p = false := Bool.eq_false_iff.mpr hm
      simp [UserRegistrationSerializer.validate_password_confirmation, hm'] at h
  · rcases h with ⟨hm, hv⟩
    subst hv
    simp [UserRegistrationSerializer.validate_password_confirmation, hm]
  · simp [UserRegistrationSerializer.validate_password_confirmation, hm]
  · simp [UserRegistrationSerializer.validate_password_confirmation, hm, hv]

/-- Witness for C4 at a concrete accepted input. -/
theorem registration_accepts_iff_regex_and_match_witness :
    UserRegistrationSerializer.validate_password_confirmation
        (Option.some "Abcdef1!") "Abcdef1!"
      = .ok "Abcdef1!" :=
  (registration_accepts_iff_regex_and_match "Abcdef1!" "Abcdef1!").1.mpr
    ⟨by decide, rfl⟩

/-- C5 counterexample: the 17-character password ending in a newline
is accepted outright (`$` matches before a trailing newline), and a
password whose only digit is the Arabic-Indic `١` — no ASCII digit —
is accepted too (`\d` is Unicode); neither fails with InvalidPassword
as the claim requires. -/
theorem weak_password_claim_counterexample :
    (("Aa1!aaaaaaaaaaaa\n" : String).length = 17
      ∧ UserRegistrationSerializer.validate_password_confirmation
          (Option.some "Aa1!aaaaaaaaaaaa\n") "Aa1!aaaaaaaaaaaa\n"
        = .ok "Aa1!aaaaaaaaaaaa\n")
    ∧ (("Abcdef!١" : String).data.any isDigitAscii = false
      ∧ UserRegistrationSerializer.validate_password_confirmation
          (Option.some "Abcdef!١") "Abcdef!١"
        = .ok "Abcdef!١") :=
  ⟨⟨by decide, by decide⟩, ⟨by decide, by decide⟩⟩

/-- C5 (amended): if the string minus a single trailing newline has
length below 8 or above 16, or no lowercase letter, no uppercase
letter, no Unicode decimal digit, or no symbol from the fixed set
occurs before the first newline, registration rejects the password
with the InvalidPassword error. -/
theorem weak_password_fails_invalid_password (s v : String)
    (h : (bodyChars s).length < 8 ∨ 16 < (bodyChars s).length
       ∨ (lookaheadChars s).any isLowerAscii = false
       ∨ (lookaheadChars s).any isUpperAscii = false
       ∨ (lookaheadChars s).any isPyDigit = false
       ∨ (lookaheadChars s).any isPasswordSymbol = false) :
    UserRegistrationSerializer.validate_password_confirmation (Option.some s) v
      = .error (.validationError invalidPasswordMsg) := by
  have hm : matchPasswordRegex s = false := by
    rw [Bool.eq_false_iff]
    intro hmt
    rcases (matchPasswordRegex_iff s).mp hmt with ⟨h1, h2, h3, h4, h5, h6, -⟩
    rcases h with h | h | h | h | h | h
    · omega
    · omega
    · rw [h1] at h; exact Bool.noConfusion h
    · rw [h2] at h; exact Bool.noConfusion h
    · rw [h3] at h; exact Bool.noConfusion h
    · rw [h4] at h; exact Bool.noConfusion h
  simp [UserRegistrationSerializer.validate_password_confirmation, hm]

/-- Witness for the amended C5 at a concrete short password. -/
theorem weak_password_fails_invalid_password_witness :
    UserRegistrationSerializer.validate_password_confirmation
        (Option.some "abc") "abc"
      = .error (.validationError invalidPasswordMsg) :=
  weak_password_fails_invalid_password "abc" "abc" (Or.inl (by decide))

/-- C8: when the raw input has no `password` key,
`get_initial().get('password')` is `None` and `re.match` raises a
`TypeError`, which is not a `ValidationError` of any message. -/
theorem missing_password_raises_type_error (v : String) :
    UserRegistrationSerializer.validate_password_confirmation Option.none v
      = .error (.typeError reMatchTypeErrorMsg)
    ∧ ∀ m, (PyExc.typeError reMatchTypeErrorMsg) ≠ PyExc.validationError m :=
  ⟨rfl, fun _ h => PyExc.noConfusion h⟩

/-- C9 counterexample: the composed check accepts `"Abcdef1!\n"`,
which contains the newline character — not an ASCII letter, digit, or
listed symbol — and, despite its length 9 and all four classes being
present plus that disallowed character, does not fail with
InvalidPassword. -/
theorem newline_password_accepted_counterexample :
    UserRegistrationSerializer.validate_password_confirmation
        (Option.some "Abcdef1!\n") "Abcdef1!\n" = .ok "Abcdef1!\n"
    ∧ '\n' ∈ ("Abcdef1!\n" : String).data
    ∧ (isLowerAscii '\n' || isUpperAscii '\n' || isDigitAscii '\n'
        || isPasswordSymbol '\n') = false
    ∧ ("Abcdef1!\n" : String).length = 9 :=
  ⟨by decide, by decide, by decide, by decide⟩

/-- C9 (amended): every character of a string accepted by the composed
check, except a single trailing newline, is an ASCII letter, a Unicode
decimal digit, or a symbol from the fixed set; hence a password
containing any other character anywhere but as a trailing newline is
rejected with InvalidPassword. -/
theorem accepted_password_chars_restricted (s v : String) :
    (matchPasswordRegex s = true → ∀ c ∈ bodyChars s,
      (isLowerAscii c || isUpperAscii c || isPyDigit c || isPasswordSymbol c) = true)
    ∧ (∀ c ∈ bodyChars s, isAllowedPasswordChar c = false →
      UserRegistrationSerializer.validate_password_confirmation (Option.some s) v
        = .error (.validationError invalidPasswordMsg)) := by
  constructor
  · intro hmt c hc
    rcases (matchPasswordRegex_iff s).mp hmt with ⟨-, -, -, -, -, -, hall⟩
    exact List.all_eq_true.mp hall c hc
  · intro c hc hbad
    have hm : matchPasswordRegex s = false := by
      rw [Bool.eq_false_iff]
      intro hmt
      rcases (matchPasswordRegex_iff s).mp hmt with ⟨-, -, -, -, -, -, hall⟩
      rw [List.all_eq_true.mp hall c hc] at hbad
      exact Bool.noConfusion hbad
    simp [UserRegistrationSerializer.validate_password_confirmation, hm]

/-- Witness for the amended C9: a length-8 password with all four
character classes but containing the disallowed character `~` is
rejected. -/
theorem accepted_password_chars_restricted_witness :
    UserRegistrationSerializer.validate_password_confirmation
        (Option.some "Aa1@bcd~") "Aa1@bcd~"
      = .error (.validationError invalidPasswordMsg) :=
  (accepted_password_chars_restricted "Aa1@bcd~" "Aa1@bcd~").2 '~' (by decide) (by decide)

/-- C10: the reset-confirmation `password_confirmation` field declares
no length bounds, and when the raw input lacks the `password` key the
validator compares against `None`, so every confirmation value fails
with PasswordMismatch. -/
theorem reset_confirmation_unbounded_and_none_mismatches :
    PasswordResetConfirmationSerializer.password_confirmation_field.max_length
        = Option.none
    ∧ PasswordResetConfirmationSerializer.password_confirmation_field.min_length
        = Option.none
    ∧ ∀ v, PasswordResetConfirmationSerializer.validate_password_confirmation
        Option.none v
      = .error (.validationError passwordMismatchMsg) :=
  ⟨rfl, rfl, fun _ => rfl⟩

/-! ## Theorems about the response mixin -/

/-- Inserting one element grows the length by one. -/
theorem insertBy_length {α : Type} (key : α → Nat) (a : α) (l : List α) :
    (insertBy key a l).length = l.length + 1 := by
  induction l with
  | nil => rfl
  | cons b t ih =>
    unfold insertBy
    split
    · rfl
    · simp [List.length_cons, ih]

/-- Sorting by `created_at` preserves the number of items. -/
theorem sortBy_length {α : Type} (key : α → Nat) (l : List α) :
    (sortBy key l).length = l.length := by
  induction l with
  | nil => rfl
  | cons a t ih => simp [sortBy, insertBy_length, ih]

/-- A paginator over an empty object list still has one (empty) page,
because Django's `num_pages` is `ceil(max(1, count) / per_page)`. -/
theorem num_pages_nil {α : Type} (ps : Nat) (hps : 0 < ps) :
    (⟨[], ps⟩ : DjangoPaginator α).num_pages = 1 := by
  unfold DjangoPaginator.num_pages DjangoPaginator.count
  simp only [List.length_nil]
  rw [show (max 1 0 : Nat) + ps - 1 = ps by omega]
  exact Nat.div_self hps

/-- Paginating an empty list with a positive page size and a request
for the (default or explicit) first page yields the empty first page. -/
theorem paginate_queryset_nil {α : Type} (ps : Nat) (req : Request) (hps : 0 < ps)
    (hpage : req.page_param = Option.none ∨ req.page_param = Option.some "1") :
    paginate_queryset ([] : List α) ps req = .ok ⟨[], 1, ⟨[], ps⟩⟩ := by
  have hnum := num_pages_nil (α := α) ps hps
  have hget : get_page_number req (⟨[], ps⟩ : DjangoPaginator α) = .ok 1 := by
    rcases hpage with h | h <;>
      simp [get_page_number, h, str_to_int, natOfDigits, isDigitAscii]
  unfold paginate_queryset
  rw [if_neg (by omega : ¬ ps = 0)]
  simp only [hget]
  simp [DjangoPaginator.page, DjangoPaginator.validate_number,
    DjangoPaginator.count, hnum]

/-- A validated page number is the requested one and is at least 1. -/
theorem validate_number_ok {α : Type} (p : DjangoPaginator α) (n n' : Nat)
    (h : p.validate_number n = .ok n') : n' = n ∧ 1 ≤ n' := by
  unfold DjangoPaginator.validate_number at h
  by_cases h1 : n < 1
  · rw [if_pos h1] at h; exact Except.noConfusion h
  · rw [if_neg h1] at h
    by_cases h2 : n > p.num_pages
    · rw [if_pos h2] at h
      by_cases h3 : n = 1
      · rw [if_pos h3] at h
        rw [Except.ok.injEq] at h; subst h; exact ⟨rfl, by omega⟩
      · rw [if_neg h3] at h; exact Except.noConfusion h
    · rw [if_neg h2] at h
      rw [Except.ok.injEq] at h; subst h; exact ⟨rfl, by omega⟩

/-- A successfully produced page carries the paginator it was sliced
from, and its 1-based number is at least 1. -/
theorem paginate_queryset_ok {α : Type} (items : List α) (ps : Nat) (req : Request)
    (pg : Page α) (h : paginate_queryset items ps req = .ok pg) :
    pg.paginator = ⟨items, ps⟩ ∧ 1 ≤ pg.number := by
  unfold paginate_queryset at h
  by_cases h0 : ps = 0
  · rw [if_pos h0] at h; exact Except.noConfusion h
  · rw [if_neg h0] at h
    simp only [] at h
    rcases hg : get_page_number req (⟨items, ps⟩ : DjangoPaginator α) with e | n
    · rw [hg] at h; exact Except.noConfusion h
    · rw [hg] at h
      simp only [] at h
      unfold DjangoPaginator.page at h
      rcases hv : (⟨items, ps⟩ : DjangoPaginator α).validate_number n with e' | n'
      · rw [hv] at h; exact Except.noConfusion h
      · rw [hv] at h
        simp only [Except.ok.injEq] at h
        obtain ⟨-, hn⟩ := validate_number_ok _ n n' hv
        subst h
        exact ⟨rfl, hn⟩

/-- C2 counterexample: over an empty queryset `paginated_response`
reports `total_pages = 1`, not `0` as claimed (Django's paginator
treats an empty collection as one empty page). -/
theorem empty_queryset_total_pages_one :
    APIResponseMixin.paginated_response (⟨"http://x/api", Option.none⟩ : Request)
        (⟨[], true, fun _ => 0⟩ : Queryset Nat) (fun n => n) "Success" 10 200
      = .ok ⟨⟨true, "Success", [], 200, ⟨Option.none, Option.none, 0, 1, 1⟩⟩, 200⟩
    ∧ (1 : Nat) ≠ 0 :=
  ⟨by decide, by decide⟩

/-- C2 (amended): over an empty queryset, with a positive page size
and the default (or explicit first) page, `paginated_response` returns
`data = []` and pagination `count = 0`, `next = null`,
`previous = null`, and `total_pages = 1`. -/
theorem paginated_response_empty_queryset {α β : Type} (req : Request)
    (qs : Queryset α) (ser : α → β) (m : String) (ps sc : Nat)
    (hitems : qs.items = []) (hps : 0 < ps)
    (hpage : req.page_param = Option.none ∨ req.page_param = Option.some "1") :
    APIResponseMixin.paginated_response req qs ser m ps sc
      = .ok ⟨⟨true, m, [], sc, ⟨Option.none, Option.none, 0, 1, 1⟩⟩, 200⟩ := by
  have hq2 : (if !qs.ordered then qs.order_by_created_at else qs).items = [] := by
    cases hqo : qs.ordered <;> simp [Queryset.order_by_created_at, hitems, sortBy]
  have hnum := num_pages_nil (α := α) ps hps
  unfold APIResponseMixin.paginated_response
  simp only [hq2, paginate_queryset_nil ps req hps hpage]
  simp [get_next_link, get_previous_link, Page.has_next, Page.has_previous,
    DjangoPaginator.count, hnum]

/-- Witness for the amended C2 at a concrete call. -/
theorem paginated_response_empty_queryset_witness :
    APIResponseMixin.paginated_response (⟨"http://z/api", Option.none⟩ : Request)
        (⟨[], false, fun _ => 0⟩ : Queryset Nat) (fun n => n) "All items" 5 201
      = .ok ⟨⟨true, "All items", [], 201, ⟨Option.none, Option.none, 0, 1, 1⟩⟩, 200⟩ :=
  paginated_response_empty_queryset (⟨"http://z/api", Option.none⟩ : Request)
    (⟨[], false, fun _ => 0⟩ : Queryset Nat) (fun n => n) "All items" 5 201
    rfl (by decide) (Or.inl rfl)

/-- C3: whenever `paginated_response` returns a response, the outer
HTTP status is the literal 200 and the `status_code` argument only
appears as the body's `status_code` field. -/
theorem paginated_outer_status_always_200 {α β : Type} (req : Request)
    (qs : Queryset α) (ser : α → β) (m : String) (ps sc : Nat)
    (r : Response (PaginatedBody β))
    (h : APIResponseMixin.paginated_response req qs ser m ps sc = .ok r) :
    r.status = 200 ∧ r.body.status_code = sc := by
  unfold APIResponseMixin.paginated_response at h
  simp only [] at h
  rcases hpq : paginate_queryset
      (if !qs.ordered then qs.order_by_created_at else qs).items ps req with e | pg
  · rw [hpq] at h; exact Except.noConfusion h
  · rw [hpq] at h
    simp only [Except.ok.injEq] at h
    subst h
    exact ⟨rfl, rfl⟩

/-- Concrete response value used to witness C3. -/
def c3ResponseValue : Response (PaginatedBody Nat) :=
  ⟨⟨true, "Success", [], 418, ⟨Option.none, Option.none, 0, 1, 1⟩⟩, 200⟩

/-- Witness for C3: a call passing `status_code = 418` still yields
outer HTTP status 200. -/
theorem paginated_outer_status_always_200_witness :
    c3ResponseValue.status = 200 ∧ c3ResponseValue.body.status_code = 418 :=
  paginated_outer_status_always_200 (⟨"http://w/api", Option.none⟩ : Request)
    (⟨[], true, fun _ => 0⟩ : Queryset Nat) (fun n => n) "Success" 10 418
    c3ResponseValue (by decide)

/-- C6: `error` wraps a string `errors` into a one-element list,
passes a list through unchanged, leaves omitted `errors` as null; the
envelope is `{status: false, message, errors}` with outer HTTP status
equal to `status_code`, whose declared default is 400. -/
theorem error_envelope_normalization (m : String) (sc : Nat) :
    (∀ s, APIResponseMixin.error m (ErrorsArg.str s) sc
        = ⟨⟨false, m, Option.some [s]⟩, sc⟩)
    ∧ (∀ l, APIResponseMixin.error m (ErrorsArg.list l) sc
        = ⟨⟨false, m, Option.some l⟩, sc⟩)
    ∧ APIResponseMixin.error m ErrorsArg.none sc = ⟨⟨false, m, Option.none⟩, sc⟩
    ∧ (APIResponseMixin.error m).status = 400 :=
  ⟨fun _ => rfl, fun _ => rfl, rfl, rfl⟩

/-- C7 counterexample: for an empty queryset the reported
`total_pages` is 1 while the ceiling of `count / page_size` is 0, so
the unrestricted ceiling formula fails. -/
theorem empty_queryset_ceiling_formula_fails :
    APIResponseMixin.paginated_response (⟨"http://y/api", Option.none⟩ : Request)
        (⟨[], true, fun _ => 0⟩ : Queryset Nat) (fun n => n) "ok" 7 400
      = .ok ⟨⟨true, "ok", [], 400, ⟨Option.none, Option.none, 0, 1, 1⟩⟩, 200⟩
    ∧ ((0 : Nat) + 7 - 1) / 7 = 0 ∧ (1 : Nat) ≠ 0 :=
  ⟨by decide, by decide, by decide⟩

/-- C7 (amended): 25 items with `page_size = 10` on page 2 give 10
items, `current_page = 2`, `total_pages = 3`, non-null `previous` and
`next`, `count = 25`; in general `count` is the total item count,
`current_page` is 1-based, and `total_pages = ceil(count / page_size)`
whenever the collection is non-empty (an empty collection reports 1). -/
theorem paginated_page2_of_25_and_general :
    (APIResponseMixin.paginated_response (⟨"http://x/api", Option.some "2"⟩ : Request)
        (⟨List.range 25, true, fun n => n⟩ : Queryset Nat) (fun n => n) "Success" 10 200
      = .ok ⟨⟨true, "Success", [10, 11, 12, 13, 14, 15, 16, 17, 18, 19], 200,
          ⟨Option.some "http://x/api?page=3", Option.some "http://x/api", 25, 2, 3⟩⟩, 200⟩)
    ∧ ∀ {α β : Type} (req : Request) (qs : Queryset α) (ser : α → β) (m : String)
        (ps sc : Nat) (r : Response (PaginatedBody β)),
      APIResponseMixin.paginated_response req qs ser m ps sc = .ok r →
      r.body.pagination.count = qs.items.length
      ∧ 1 ≤ r.body.pagination.current_page
      ∧ (0 < qs.items.length →
          r.body.pagination.total_pages = (qs.items.length + ps - 1) / ps) := by
  refine ⟨by decide, ?_⟩
  intro α β req qs ser m ps sc r h
  unfold APIResponseMixin.paginated_response at h
  simp only [] at h
  rcases hpq : paginate_queryset
      (if !qs.ordered then qs.order_by_created_at else qs).items ps req with e | pg
  · rw [hpq] at h; exact Except.noConfusion h
  · rw [hpq] at h
    simp only [Except.ok.injEq] at h
    subst h
    obtain ⟨hpag, hnum⟩ := paginate_queryset_ok _ _ _ _ hpq
    have hlen : (if !qs.ordered then qs.order_by_created_at else qs).items.length
        = qs.items.length := by
      cases hqo : qs.ordered <;> simp [Queryset.order_by_created_at, sortBy_length]
    refine ⟨?_, hnum, ?_⟩
    · show pg.paginator.count = qs.items.length
      rw [hpag]
      unfold DjangoPaginator.count
      exact hlen
    · intro hpos
      show pg.paginator.num_pages = (qs.items.length + ps - 1) / ps
      rw [hpag]
      unfold DjangoPaginator.num_pages DjangoPaginator.count
      rw [hlen, Nat.max_eq_right (by omega : 1 ≤ qs.items.length)]

/-- Concrete response value used to witness C7's general clauses. -/
def c7ResponseValue : Response (PaginatedBody Nat) :=
  ⟨⟨true, "m", [5, 6], 200, ⟨Option.some "http://u?page=2", Option.none, 3, 1, 2⟩⟩, 200⟩

/-- Witness for C7's general clauses at a concrete 3-item call with
page size 2. -/
theorem paginated_page2_of_25_and_general_witness :
    c7ResponseValue.body.pagination.count = 3
    ∧ 1 ≤ c7ResponseValue.body.pagination.current_page
    ∧ c7ResponseValue.body.pagination.total_pages = (3 + 2 - 1) / 2 := by
  have h := paginated_page2_of_25_and_general.2 (⟨"http://u", Option.none⟩ : Request)
    (⟨[5, 6, 7], true, fun n => n⟩ : Queryset Nat) (fun n => n) "m" 2 200
    c7ResponseValue (by decide)
  exact ⟨h.1, h.2.1, h.2.2 (by decide)⟩

end WebsiteApi
